import Mathlib

/-!
Verification of the alarms scheduler request handler
(`amplify/backend/function/alarmsScheduler/src/index.py`).

The handler is a validation-and-dispatch shim over an external
event-scheduling service.  We embed it shallowly: the external clients
(the CloudWatch Events client and the Lambda client) are a record of
state transformers returning either a value or a raised exception
message, and every embedded operation additionally returns the ordered
trace of external calls it issued.  JSON (de)serialization performed by
the Python standard library at the boundary is represented by its
outcome: an incoming body is its `json.loads` result, and an outgoing
response carries the message value passed to `json_response` before
`json.dumps`.
-/

namespace AlarmsScheduler

/-- A Python-style value as returned by the external service clients:
a string, a number, a dictionary or a list.  Enough structure to model
the dictionaries the handler subscripts and their truthiness. -/
inductive Val where
  | str : String → Val
  | nat : Nat → Val
  | dict : List (String × Val) → Val
  | list : List Val → Val

/-- Python truthiness of a value: empty strings, zero, empty dicts and
empty lists are falsy. -/
def Val.truthy : Val → Bool
  | .str s => !s.isEmpty
  | .nat n => n != 0
  | .dict es => !es.isEmpty
  | .list vs => !vs.isEmpty

/-- Python subscripting `v[k]`: a missing key raises `KeyError` (whose
string form is the quoted key) and subscripting a non-dictionary raises
`TypeError`; both are modelled as raised messages. -/
def Val.getItem : Val → String → Except String Val
  | .dict es, k =>
    match es.find? (fun e => e.1 == k) with
    | some e => .ok e.2
    | none => .error ("\x27" ++ k ++ "\x27")
  | _, _ => .error "TypeError: value is not subscriptable"

/-- Coercion of a value to the string expected by a service-call
parameter; a non-string raises a parameter-validation error inside the
guarded block (as the service client would). -/
def Val.asStr : Val → Except String String
  | .str s => .ok s
  | _ => .error "ParamValidationError: parameter must be a string"

/-- Result of parsing a date with `datetime.strptime`: the fields of a
`datetime` object the handler reads. -/
structure PyDatetime where
  year : Nat
  month : Nat
  day : Nat
  hour : Nat
  minute : Nat
  second : Nat
deriving DecidableEq, Repr

/-- Gregorian leap-year test, as used by `datetime` day validation. -/
def leapYear (y : Nat) : Bool :=
  (y % 4 == 0 && y % 100 != 0) || y % 400 == 0

/-- Number of days in a month, as enforced by the `datetime`
constructor. -/
def days_in_month (y m : Nat) : Nat :=
  if m = 2 then (if leapYear y then 29 else 28)
  else if m = 4 ∨ m = 6 ∨ m = 9 ∨ m = 11 then 30
  else 31

/-- Split a maximal leading run of ASCII digits from a character
list. -/
def splitDigits : List Char → List Char × List Char
  | [] => ([], [])
  | c :: rest =>
    if c.isDigit then
      let p := splitDigits rest
      (c :: p.1, p.2)
    else ([], c :: rest)

/-- Numeric value of a digit run. -/
def digitsToNat (ds : List Char) : Nat :=
  ds.foldl (fun a c => a * 10 + (c.toNat - 48)) 0

/-- Whitespace characters matched by the regex class used for the
space in the date format. -/
def wsChar (c : Char) : Bool :=
  c == ' ' || c == '\t' || c == '\n' || c == '\r' || c == '\x0b' || c == '\x0c'

/-- Split a maximal leading whitespace run from a character list. -/
def splitWs : List Char → List Char × List Char
  | [] => ([], [])
  | c :: rest =>
    if wsChar c then
      let p := splitWs rest
      (c :: p.1, p.2)
    else ([], c :: rest)

/-- Parse a one- or two-digit numeric field whose value must lie in
`[lo, hi]`, as the per-field regex alternations of `strptime` admit for
the fixed format below.  A run longer than two digits never matches
(the trailing literal separator fails). -/
def parseField2 (cs : List Char) (lo hi : Nat) : Option (Nat × List Char) :=
  let p := splitDigits cs
  if p.1.length = 0 ∨ p.1.length > 2 then none
  else
    let v := digitsToNat p.1
    if lo ≤ v ∧ v ≤ hi then some (v, p.2) else none

/-- Parsing of `datetime.strptime(s, "%Y-%m-%d %H:%M:%S")`: a
four-digit year, dash, month 1..12, dash, day 1..31, whitespace,
hour 0..23, colon, minute 0..59, colon, second 0..59, end of string;
the `datetime` constructor then requires year at least 1 and the day to
fit the month (and rejects the leap seconds the second-field regex
admits, so the net bound on seconds is 59). -/
def strptimeLocalFormat (s : String) : Option PyDatetime :=
  let p0 := splitDigits s.toList
  if p0.1.length ≠ 4 then none else
  let y := digitsToNat p0.1
  match p0.2 with
  | '-' :: r1 =>
    match parseField2 r1 1 12 with
    | none => none
    | some (m, r2) =>
      match r2 with
      | '-' :: r3 =>
        match parseField2 r3 1 31 with
        | none => none
        | some (d, r4) =>
          let pw := splitWs r4
          if pw.1.length = 0 then none else
          match parseField2 pw.2 0 23 with
          | none => none
          | some (h, r5) =>
            match r5 with
            | ':' :: r6 =>
              match parseField2 r6 0 59 with
              | none => none
              | some (mi, r7) =>
                match r7 with
                | ':' :: r8 =>
                  match parseField2 r8 0 59 with
                  | none => none
                  | some (sec, r9) =>
                    if r9 = [] ∧ 1 ≤ y ∧ d ≤ days_in_month y m then
                      some ⟨y, m, d, h, mi, sec⟩
                    else none
                | _ => none
            | _ => none
      | _ => none
  | _ => none

/-- Source `validate_date`: parses the date with the fixed local
format and returns the datetime object, or the falsy empty string on
any failure — modelled as an `Option`. -/
def validate_date (strDate : String) : Option PyDatetime :=
  strptimeLocalFormat strDate

/-- Characters admitted by the rule-name character class
`[\.\-_A-Za-z0-9]`. -/
def nameCharOK (c : Char) : Bool :=
  c == '.' || c == '-' || c == '_' || c.isAlpha || c.isDigit

/-- Source `validate_name`: `re.fullmatch` of `[\.\-_A-Za-z0-9]+`
against the name, truthy exactly when the name is nonempty and every
character is in the class. -/
def validate_name (name : String) : Bool :=
  !name.isEmpty && name.toList.all nameCharOK

/-- The JSON request body after `json.loads`, restricted to the fields
the handler reads; a field absent from the body is `none`.  The inbound
contract gives all four fields string values. -/
structure RequestBody where
  action : Option String
  id : Option String
  date : Option String
  state : Option String

/-- Source `read_body_parameter`: returns the named field of the body,
or the empty string when the key is missing (`KeyError` caught). -/
def read_body_parameter (requestBody : RequestBody) (parameterName : String) : String :=
  if parameterName = "id" then (requestBody.id).getD ""
  else if parameterName = "date" then (requestBody.date).getD ""
  else if parameterName = "state" then (requestBody.state).getD ""
  else ""

/-- The incoming HTTP-style event: the method, and the body given by
the outcome of `json.loads` on the raw body string (`.error` carries
the decode-exception message). -/
structure Event where
  httpMethod : String
  body : Except String RequestBody

/-- An HTTP response: the status code and the message value handed to
`json_response` (its `json.dumps` serialization and the backslash
post-processing are the stdlib boundary and are not modelled). -/
structure HttpResponse where
  statusCode : Nat
  body : Val

/-- Source `json_response`: packs a message value and a status code
into a response (the constant CORS headers carry no information). -/
def json_response (responseMessage : Val) (code : Nat) : HttpResponse :=
  { statusCode := code, body := responseMessage }

/-- A target entry as passed to the put-targets call. -/
structure Target where
  arn : Val
  id : String
  input : String

/-- One external call issued by the handler, with its arguments, in
the order the source passes them. -/
inductive Call where
  | getFunction : String → Call
  | listRules : Call
  | describeRule : String → Call
  | putRule : String → String → String → Call
  | putTargets : String → List Target → Call
  | removeTargets : String → List String → Bool → Call
  | deleteRule : String → Bool → Call

/-- Whether a call goes to the scheduling service (every call except
the identity-resolution lookup of the executor function). -/
def Call.isSched : Call → Bool
  | .getFunction _ => false
  | _ => true

/-- The external clients as state transformers: each operation either
returns a value or raises a message, and may update the external
state `σ`. -/
structure Client (σ : Type) where
  getFunction : String → σ → Except String Val × σ
  listRules : σ → Except String Val × σ
  describeRule : String → σ → Except String Val × σ
  putRule : String → String → String → σ → Except String Val × σ
  putTargets : String → List Target → σ → Except String Val × σ
  removeTargets : String → List String → Bool → σ → Except String Val × σ
  deleteRule : String → Bool → σ → Except String Val × σ

/-- What the handler produces: a response, the Python implicit `None`
return (a branch fell through without returning), or an exception that
propagated uncaught out of the handler. -/
inductive HandlerOutcome where
  | response : HttpResponse → HandlerOutcome
  | noResponse : HandlerOutcome
  | uncaught : String → HandlerOutcome

/-- Status code of an outcome, when it is a response. -/
def respStatus : HandlerOutcome → Option Nat
  | .response r => some r.statusCode
  | _ => none

/-- The shared rule-name validation message (identical in all four
operations once Python escape processing is applied). -/
def rulePatternMessage : String :=
  "The rule\x27s id must satisfy regular expression pattern: [\\.\\-_A-Za-z0-9]+"

/-- The create-path date validation message. -/
def dateFormatMessage : String :=
  "There was an issue reading the date. Provide a date with a valid format e.g. yyyy-mm-dd HH:MM:ss"

/-- The message of the `UnboundLocalError` raised in `delete_rule`
when the delete-response variable is referenced after the branch that
assigns it was skipped; Python raises it at the `if` test and the broad
`except` of the function catches it. -/
def unboundLocalMessage : String :=
  "local variable \x27delete_rule_response\x27 referenced before assignment"

/-- Source `query_rule`: empty name lists all rules; a nonempty name
is validated against the pattern and then described; service errors
are caught and returned as 400. -/
def query_rule {σ : Type} (requestBody : RequestBody) (cl : Client σ) (s : σ) :
    HandlerOutcome × σ × List Call :=
  let name := read_body_parameter requestBody "id"
  if name = "" then
    match cl.listRules s with
    | (.error e, s₁) => (.response (json_response (.str e) 400), s₁, [.listRules])
    | (.ok query_result, s₁) =>
      (.response (json_response query_result 200), s₁, [.listRules])
  else if validate_name name = false then
    (.response (json_response (.str rulePatternMessage) 400), s, [])
  else
    match cl.describeRule name s with
    | (.error e, s₁) => (.response (json_response (.str e) 400), s₁, [.describeRule name])
    | (.ok query_result, s₁) =>
      (.response (json_response query_result 200), s₁, [.describeRule name])

/-- Source `create_rule`: validates name and date locally, derives the
cron expression from the parsed date, puts the rule ENABLED, then
attaches the single executor target whose invocation input is built by
raw string concatenation of the unquoted id; finally reads `RuleArn`
from the put-rule response for the success message.  Exceptions inside
the guarded block are caught and returned as 400. -/
def create_rule {σ : Type} (requestBody : RequestBody) (executerArn : Val)
    (cl : Client σ) (s : σ) : HandlerOutcome × σ × List Call :=
  let name := read_body_parameter requestBody "id"
  let date := read_body_parameter requestBody "date"
  if name = "" then
    (.response (json_response (.str "The id on the body request cannot be empty") 400), s, [])
  else if date = "" then
    (.response (json_response (.str "You must provide a date for the event") 400), s, [])
  else if validate_name name = false then
    (.response (json_response (.str rulePatternMessage) 400), s, [])
  else
    match validate_date date with
    | none => (.response (json_response (.str dateFormatMessage) 400), s, [])
    | some datetime_object =>
      let cron_expression :=
        "cron(" ++ toString datetime_object.minute ++ " " ++
          toString datetime_object.hour ++ " * * ? *)"
      match cl.putRule name cron_expression "ENABLED" s with
      | (.error e, s₁) =>
        (.response (json_response (.str e) 400), s₁,
          [.putRule name cron_expression "ENABLED"])
      | (.ok new_rule_response, s₁) =>
        let target : Target :=
          { arn := executerArn, id := name,
            input := "\x7b \"id\" : " ++ name ++ " \x7d" }
        match cl.putTargets name [target] s₁ with
        | (.error e, s₂) =>
          (.response (json_response (.str e) 400), s₂,
            [.putRule name cron_expression "ENABLED", .putTargets name [target]])
        | (.ok _, s₂) =>
          match new_rule_response.getItem "RuleArn" >>= Val.asStr with
          | .error e =>
            (.response (json_response (.str e) 400), s₂,
              [.putRule name cron_expression "ENABLED", .putTargets name [target]])
          | .ok ruleArn =>
            (.response (json_response
                (.str ("New Rule created successfully: " ++ ruleArn)) 200), s₂,
              [.putRule name cron_expression "ENABLED", .putTargets name [target]])

/-- Python `str.upper` as used on the state field (identity outside
the lowercase ASCII range the state values use). -/
def pyUpper (s : String) : String := ⟨s.data.map Char.toUpper⟩

/-- Source `update_rule`: validates the name, requires a date or a
state, validates the state case-insensitively, then inside the guarded
block derives the new cron expression when the date parsed, describes
the existing rule, and re-puts it with the new schedule or the old one
and the upper-cased new state or the old one; exceptions (including
key lookups on the described rule) are caught and returned as 400. -/
def update_rule {σ : Type} (requestBody : RequestBody) (cl : Client σ) (s : σ) :
    HandlerOutcome × σ × List Call :=
  let name := read_body_parameter requestBody "id"
  let date := read_body_parameter requestBody "date"
  let state := read_body_parameter requestBody "state"
  if name = "" then
    (.response (json_response (.str "The id on the body request cannot be empty") 400), s, [])
  else if date = "" ∧ state = "" then
    (.response (json_response
        (.str "You must provide a date or a state to update the event") 400), s, [])
  else if validate_name name = false then
    (.response (json_response (.str rulePatternMessage) 400), s, [])
  else
    let datetime_object : Option PyDatetime :=
      if date ≠ "" then validate_date date else none
    if state ≠ "" ∧ pyUpper state ≠ "ENABLED" ∧ pyUpper state ≠ "DISABLED" then
      (.response (json_response (.str "The state must be either ENABLED or DISABLED") 400), s, [])
    else
      let cron_expression : Option String :=
        datetime_object.map (fun d =>
          "cron(" ++ toString d.minute ++ " " ++ toString d.hour ++ " * * ? *)")
      match cl.describeRule name s with
      | (.error e, s₁) =>
        (.response (json_response (.str e) 400), s₁, [.describeRule name])
      | (.ok query_result, s₁) =>
        let schedArg : Except String String :=
          match cron_expression with
          | some ce => .ok ce
          | none => query_result.getItem "ScheduleExpression" >>= Val.asStr
        let stateArg : Except String String :=
          if state ≠ "" then .ok (pyUpper state)
          else query_result.getItem "State" >>= Val.asStr
        match schedArg with
        | .error e =>
          (.response (json_response (.str e) 400), s₁, [.describeRule name])
        | .ok sched =>
          match stateArg with
          | .error e =>
            (.response (json_response (.str e) 400), s₁, [.describeRule name])
          | .ok st =>
            match cl.putRule name sched st s₁ with
            | (.error e, s₂) =>
              (.response (json_response (.str e) 400), s₂,
                [.describeRule name, .putRule name sched st])
            | (.ok updated_rule_response, s₂) =>
              match updated_rule_response.getItem "RuleArn" >>= Val.asStr with
              | .error e =>
                (.response (json_response (.str e) 400), s₂,
                  [.describeRule name, .putRule name sched st])
              | .ok ruleArn =>
                (.response (json_response
                    (.str ("Rule updated successfully: " ++ ruleArn)) 200), s₂,
                  [.describeRule name, .putRule name sched st])

/-- Source `delete_rule`: validates the name, then removes the single
target; only when the remove-targets response is truthy is the rule
deleted.  When it is falsy the local delete-response variable was never
assigned, so the success test raises `UnboundLocalError`, caught by the
broad `except` and returned as 400.  A truthy delete-response returns
200; a falsy one falls off the end of the function (implicit `None`). -/
def delete_rule {σ : Type} (requestBody : RequestBody) (cl : Client σ) (s : σ) :
    HandlerOutcome × σ × List Call :=
  let name := read_body_parameter requestBody "id"
  if name = "" then
    (.response (json_response (.str "The id on the body request cannot be empty") 400), s, [])
  else if validate_name name = false then
    (.response (json_response (.str rulePatternMessage) 400), s, [])
  else
    match cl.removeTargets name [name] true s with
    | (.error e, s₁) =>
      (.response (json_response (.str e) 400), s₁, [.removeTargets name [name] true])
    | (.ok remove_targets_response, s₁) =>
      if remove_targets_response.truthy then
        match cl.deleteRule name true s₁ with
        | (.error e, s₂) =>
          (.response (json_response (.str e) 400), s₂,
            [.removeTargets name [name] true, .deleteRule name true])
        | (.ok delete_rule_response, s₂) =>
          if delete_rule_response.truthy then
            (.response (json_response (.str "Rule deleted successfully") 200), s₂,
              [.removeTargets name [name] true, .deleteRule name true])
          else
            (.noResponse, s₂, [.removeTargets name [name] true, .deleteRule name true])
      else
        (.response (json_response (.str unboundLocalMessage) 400), s₁,
          [.removeTargets name [name] true])

/-- Source `handler`: parses the body (decode failure returns 400
before anything else), rejects non-POST methods with 405, validates the
action — note the guard is a conjunction starting with the emptiness
test, so only an empty action string is rejected here — then resolves
the executor function outside any guarded block (a failure there
propagates uncaught) and dispatches to the four operations; an
unrecognized nonempty action matches no branch and the function falls
off the end. -/
def handler {σ : Type} (event : Event) (env : String) (cl : Client σ) (s : σ) :
    HandlerOutcome × σ × List Call :=
  match event.body with
  | .error e => (.response (json_response (.str e) 400), s, [])
  | .ok request_body =>
    if event.httpMethod ≠ "POST" then
      (.response (json_response
          (.str "Please use POST httpMethod for this endPoint") 405), s, [])
    else
      match request_body.action with
      | none =>
        (.response (json_response
            (.str "There was an error reading the action on the body request") 400), s, [])
      | some action =>
        if action = "" ∧ action ≠ "create" ∧ action ≠ "query" ∧
            action ≠ "delete" ∧ action ≠ "update" then
          (.response (json_response
              (.str "The action on the body request should be: create, query, delete or update.")
              400), s, [])
        else
          let fname := "alarmsExecuter-" ++ env
          match cl.getFunction fname s with
          | (.error e, s₁) => (.uncaught e, s₁, [.getFunction fname])
          | (.ok resp, s₁) =>
            match resp.getItem "Configuration" with
            | .error e => (.uncaught e, s₁, [.getFunction fname])
            | .ok conf =>
              match conf.getItem "FunctionArn" with
              | .error e => (.uncaught e, s₁, [.getFunction fname])
              | .ok executerArn =>
                if action = "create" then
                  let r := create_rule request_body executerArn cl s₁
                  (r.1, r.2.1, .getFunction fname :: r.2.2)
                else if action = "query" then
                  let r := query_rule request_body cl s₁
                  (r.1, r.2.1, .getFunction fname :: r.2.2)
                else if action = "update" then
                  let r := update_rule request_body cl s₁
                  (r.1, r.2.1, .getFunction fname :: r.2.2)
                else if action = "delete" then
                  let r := delete_rule request_body cl s₁
                  (r.1, r.2.1, .getFunction fname :: r.2.2)
                else
                  (.noResponse, s₁, [.getFunction fname])

/-- Whether a trace is free of scheduling-service calls. -/
def noSchedCall (t : List Call) : Bool :=
  t.all (fun c => !c.isSched)

/-- Whether a trace is free of rule-delete calls. -/
def noDeleteCall (t : List Call) : Bool :=
  t.all (fun c => match c with | .deleteRule _ _ => false | _ => true)

/-- Whether a trace is free of single-rule describe calls. -/
def noDescribeCall (t : List Call) : Bool :=
  t.all (fun c => match c with | .describeRule _ => false | _ => true)

/-- A fixed executor function identifier used by the concrete
clients. -/
def happyArn : String :=
  "arn:aws:lambda:us-east-1:123456789012:function:alarmsExecuter-dev"

/-- The value the identity-resolution lookup returns in the concrete
clients: a configuration dictionary holding the function identifier. -/
def happyGetFunctionVal : Val :=
  .dict [("Configuration", .dict [("FunctionArn", .str happyArn)])]

/-- A stateless concrete client on which every call succeeds, with the
response shapes the external services document. -/
def happyClient : Client Unit where
  getFunction := fun _ s => (.ok happyGetFunctionVal, s)
  listRules := fun s =>
    (.ok (.dict [("Rules", .list [.dict [("Name", .str "job-1")]])]), s)
  describeRule := fun n s =>
    (.ok (.dict [("Name", .str n),
                 ("ScheduleExpression", .str "cron(0 0 * * ? *)"),
                 ("State", .str "ENABLED")]), s)
  putRule := fun n _ _ s => (.ok (.dict [("RuleArn", .str ("arn:rule/" ++ n))]), s)
  putTargets := fun _ _ s =>
    (.ok (.dict [("FailedEntryCount", .nat 0), ("FailedEntries", .list [])]), s)
  removeTargets := fun _ _ _ s =>
    (.ok (.dict [("FailedEntryCount", .nat 0), ("FailedEntries", .list [])]), s)
  deleteRule := fun _ _ s => (.ok (.dict [("Deleted", .str "ok")]), s)

/-- A client identical to `happyClient` except that the remove-targets
call returns a falsy (empty) dictionary. -/
def falsyDetachClient : Client Unit :=
  { happyClient with removeTargets := fun _ _ _ s => (.ok (.dict []), s) }

/-- A client identical to `happyClient` except that the remove-targets
call raises, as the scheduling service does for a rule that does not
exist. -/
def missingRuleClient : Client Unit :=
  { happyClient with
    removeTargets := fun n _ _ s =>
      (.error ("ResourceNotFoundException: Rule " ++ n ++ " does not exist."), s) }

/-- A client identical to `happyClient` except that the
identity-resolution lookup of the executor function raises. -/
def failingLookupClient : Client Unit :=
  { happyClient with
    getFunction := fun n s =>
      (.error ("ResourceNotFoundException: Function not found: " ++ n), s) }

/-- The validation prefix of `create_rule`: the message of the first
failing local check in source order (empty id, empty date, name
pattern, date format), or `none` when all checks pass and the guarded
block is entered. -/
def create_validation (requestBody : RequestBody) : Option String :=
  if read_body_parameter requestBody "id" = "" then
    some "The id on the body request cannot be empty"
  else if read_body_parameter requestBody "date" = "" then
    some "You must provide a date for the event"
  else if validate_name (read_body_parameter requestBody "id") = false then
    some rulePatternMessage
  else if (validate_date (read_body_parameter requestBody "date")).isNone then
    some dateFormatMessage
  else none

/-- The validation prefix of `query_rule`: an empty id is not a
failure (it selects the listing branch); a nonempty id failing the
name pattern is the only local check. -/
def query_validation (requestBody : RequestBody) : Option String :=
  if read_body_parameter requestBody "id" = "" then none
  else if validate_name (read_body_parameter requestBody "id") = false then
    some rulePatternMessage
  else none

/-- The validation prefix of `update_rule`: the message of the first
failing local check in source order (empty id, neither date nor state,
name pattern, state enumeration); an unparsable date is not a
validation failure here. -/
def update_validation (requestBody : RequestBody) : Option String :=
  if read_body_parameter requestBody "id" = "" then
    some "The id on the body request cannot be empty"
  else if read_body_parameter requestBody "date" = "" ∧
      read_body_parameter requestBody "state" = "" then
    some "You must provide a date or a state to update the event"
  else if validate_name (read_body_parameter requestBody "id") = false then
    some rulePatternMessage
  else if read_body_parameter requestBody "state" ≠ "" ∧
      pyUpper (read_body_parameter requestBody "state") ≠ "ENABLED" ∧
      pyUpper (read_body_parameter requestBody "state") ≠ "DISABLED" then
    some "The state must be either ENABLED or DISABLED"
  else none

/-- The validation prefix of `delete_rule`: empty id, then the name
pattern. -/
def delete_validation (requestBody : RequestBody) : Option String :=
  if read_body_parameter requestBody "id" = "" then
    some "The id on the body request cannot be empty"
  else if validate_name (read_body_parameter requestBody "id") = false then
    some rulePatternMessage
  else none

/-- The validation outcome of a dispatched request: the failing
message of the selected operation's validation prefix, or `none` when
the action is unrecognized or validation passes. -/
def request_validation (action : String) (requestBody : RequestBody) : Option String :=
  if action = "create" then create_validation requestBody
  else if action = "query" then query_validation requestBody
  else if action = "update" then update_validation requestBody
  else if action = "delete" then delete_validation requestBody
  else none

/-- A name containing a space fails the rule-name pattern. -/
lemma validate_name_space (name : String) (h : ' ' ∈ name.toList) :
    validate_name name = false := by
  cases hb : validate_name name with
  | false => rfl
  | true =>
    exfalso
    unfold validate_name at hb
    rw [Bool.and_eq_true, List.all_eq_true] at hb
    exact absurd (hb.2 ' ' h) (by decide)

/-- A name containing a space is nonempty. -/
lemma space_mem_ne_empty (name : String) (h : ' ' ∈ name.toList) :
    name ≠ "" := by
  intro he
  subst he
  simp at h

/-- Claim C1: for a create request with id `job-1` and date
`2030-01-01 09:30:00`, the handler derives the schedule
`cron(30 9 * * ? *)`, creates the rule ENABLED, attaches one executor
target, and returns 200 — but the invocation input attached is the raw
concatenation `\x7b "id" : job-1 \x7d`, which is not the JSON object
`\x7b"id":"job-1"\x7d` the specification requires. -/
theorem C1_create_job1 :
    (handler ⟨"POST", .ok ⟨some "create", some "job-1", some "2030-01-01 09:30:00", none⟩⟩
        "dev" happyClient ()).1 =
      .response (json_response (.str "New Rule created successfully: arn:rule/job-1") 200) ∧
    (handler ⟨"POST", .ok ⟨some "create", some "job-1", some "2030-01-01 09:30:00", none⟩⟩
        "dev" happyClient ()).2.2 =
      [Call.getFunction "alarmsExecuter-dev",
       Call.putRule "job-1" "cron(30 9 * * ? *)" "ENABLED",
       Call.putTargets "job-1"
         [{ arn := .str happyArn, id := "job-1", input := "\x7b \"id\" : job-1 \x7d" }]] ∧
    ("\x7b \"id\" : job-1 \x7d" : String) ≠ "\x7b\"id\":\"job-1\"\x7d" :=
  ⟨rfl, rfl, by decide⟩

/-- Claim C2 counterexample: a GET request whose body does not parse
as JSON is answered with 400 (the decode error is returned before the
method check), not with 405 as the claim states for every non-POST
request. -/
theorem C2_counterexample :
    ("GET" : String) ≠ "POST" ∧
    (handler ⟨"GET", .error "Expecting value: line 1 column 1 (char 0)"⟩
        "dev" happyClient ()).1 =
      .response (json_response (.str "Expecting value: line 1 column 1 (char 0)") 400) ∧
    respStatus (handler ⟨"GET", .error "Expecting value: line 1 column 1 (char 0)"⟩
        "dev" happyClient ()).1 ≠ some 405 :=
  ⟨by decide, rfl, by decide⟩

/-- Claim C2 amended: a request whose body parses as JSON and whose
method is not POST is answered 405; a request whose body does not
parse is answered 400 with the decode error, whatever the method. -/
theorem C2_amended {σ : Type} (cl : Client σ) (s : σ) (env method method₂ emsg : String)
    (rb : RequestBody) (h : method ≠ "POST") :
    handler ⟨method, .ok rb⟩ env cl s =
      (.response (json_response (.str "Please use POST httpMethod for this endPoint") 405),
        s, []) ∧
    handler ⟨method₂, .error emsg⟩ env cl s =
      (.response (json_response (.str emsg) 400), s, []) := by
  constructor
  · simp [handler, h]
  · rfl

/-- Claim C2 witness: the amended statement at a concrete GET
request. -/
theorem C2_witness :
    handler ⟨"GET", .ok ⟨some "query", none, none, none⟩⟩ "dev" happyClient () =
      (.response (json_response (.str "Please use POST httpMethod for this endPoint") 405),
        (), []) ∧
    handler ⟨"GET", .error "Expecting value"⟩ "dev" happyClient () =
      (.response (json_response (.str "Expecting value") 400), (), []) :=
  C2_amended happyClient () "dev" "GET" "GET" "Expecting value"
    ⟨some "query", none, none, none⟩ (by decide)

/-- Claim C3: a POST request whose action is the unrecognized nonempty
string `foo` is not rejected with 400: the action guard is a
conjunction that an unrecognized nonempty action fails, so the handler
resolves the executor identity and then falls off the end of the
dispatch, returning no response. -/
theorem C3_fallthrough :
    (handler ⟨"POST", .ok ⟨some "foo", none, none, none⟩⟩ "dev" happyClient ()) =
      (.noResponse, (), [Call.getFunction "alarmsExecuter-dev"]) :=
  rfl

/-- Claim C4 counterexample: with a detach call that returns a falsy
response, the delete handler does not fall through with no return
value as claimed — the reference to the never-assigned delete-response
variable raises, the broad except catches it, and a 400 response is
returned. -/
theorem C4_counterexample :
    (handler ⟨"POST", .ok ⟨some "delete", some "job-1", none, none⟩⟩
        "dev" falsyDetachClient ()).1 =
      .response (json_response (.str unboundLocalMessage) 400) ∧
    (handler ⟨"POST", .ok ⟨some "delete", some "job-1", none, none⟩⟩
        "dev" falsyDetachClient ()).1 ≠ HandlerOutcome.noResponse := by
  refine ⟨rfl, ?_⟩
  rw [show (handler ⟨"POST", .ok ⟨some "delete", some "job-1", none, none⟩⟩
      "dev" falsyDetachClient ()).1 =
    .response (json_response (.str unboundLocalMessage) 400) from rfl]
  simp

/-- Claim C4 amended: when the remove-targets call of a delete request
returns a falsy response, the rule-delete call is never reached, and
the handler returns a 400 response carrying the unbound-variable error
message (the success test references the never-assigned delete-response
variable, raising an error the broad except catches) rather than
falling through with no response. -/
theorem C4_amended {σ : Type} (cl : Client σ) (s s₁ s₂ : σ) (env name : String)
    (gv conf arn v : Val)
    (hG : cl.getFunction ("alarmsExecuter-" ++ env) s = (.ok gv, s₁))
    (hC : gv.getItem "Configuration" = .ok conf)
    (hA : conf.getItem "FunctionArn" = .ok arn)
    (hn : name ≠ "") (hv : validate_name name = true)
    (hR : cl.removeTargets name [name] true s₁ = (.ok v, s₂))
    (hf : v.truthy = false) :
    handler ⟨"POST", .ok ⟨some "delete", some name, none, none⟩⟩ env cl s =
      (.response (json_response (.str unboundLocalMessage) 400), s₂,
        [.getFunction ("alarmsExecuter-" ++ env), .removeTargets name [name] true]) := by
  simp [handler, hG, hC, hA, delete_rule, read_body_parameter, hn, hv, hR, hf]

/-- Claim C4 witness: the amended statement at a concrete delete
request against the falsy-detach client. -/
theorem C4_witness :
    handler ⟨"POST", .ok ⟨some "delete", some "job-1", none, none⟩⟩
        "dev" falsyDetachClient () =
      (.response (json_response (.str unboundLocalMessage) 400), (),
        [.getFunction ("alarmsExecuter-" ++ "dev"), .removeTargets "job-1" ["job-1"] true]) :=
  C4_amended falsyDetachClient () () () "dev" "job-1" happyGetFunctionVal
    (.dict [("FunctionArn", .str happyArn)]) (.str happyArn) (.dict [])
    rfl rfl rfl (by decide) (by decide) rfl rfl

/-- Claim C5 counterexample: a create request with a space in the id
is rejected with 400 before any scheduling-service call, but not
before any external-service call — the executor identity lookup has
already been issued when the validation failure is detected, so the
trace is nonempty. -/
theorem C5_counterexample :
    respStatus (handler ⟨"POST",
        .ok ⟨some "create", some "job 1", some "2030-01-01 09:30:00", none⟩⟩
        "dev" happyClient ()).1 = some 400 ∧
    (handler ⟨"POST", .ok ⟨some "create", some "job 1", some "2030-01-01 09:30:00", none⟩⟩
        "dev" happyClient ()).2.2 = [Call.getFunction "alarmsExecuter-dev"] ∧
    ([Call.getFunction "alarmsExecuter-dev"] : List Call) ≠ [] :=
  ⟨rfl, rfl, by simp⟩

/-- A failing check in the validation prefix of `create_rule` makes
the operation return 400 with that message and no external call. -/
lemma create_rule_validation_fails {σ : Type} (rb : RequestBody) (arn : Val)
    (cl : Client σ) (s : σ) (msg : String)
    (h : create_validation rb = some msg) :
    create_rule rb arn cl s = (.response (json_response (.str msg) 400), s, []) := by
  by_cases h1 : read_body_parameter rb "id" = ""
  · simp [create_validation, h1] at h
    subst h
    simp [create_rule, h1]
  · by_cases h2 : read_body_parameter rb "date" = ""
    · simp [create_validation, h1, h2] at h
      subst h
      simp [create_rule, h1, h2]
    · by_cases h3 : validate_name (read_body_parameter rb "id") = false
      · simp [create_validation, h1, h2, h3] at h
        subst h
        simp [create_rule, h1, h2, h3]
      · by_cases h4 : (validate_date (read_body_parameter rb "date")).isNone
        · simp [create_validation, h1, h2, h3, h4] at h
          subst h
          have h5 : validate_date (read_body_parameter rb "date") = none :=
            Option.isNone_iff_eq_none.mp h4
          simp [create_rule, h1, h2, h3, h5]
        · simp [create_validation, h1, h2, h3, h4] at h

/-- A failing check in the validation prefix of `query_rule` makes
the operation return 400 with that message and no external call. -/
lemma query_rule_validation_fails {σ : Type} (rb : RequestBody)
    (cl : Client σ) (s : σ) (msg : String)
    (h : query_validation rb = some msg) :
    query_rule rb cl s = (.response (json_response (.str msg) 400), s, []) := by
  by_cases h1 : read_body_parameter rb "id" = ""
  · simp [query_validation, h1] at h
  · by_cases h2 : validate_name (read_body_parameter rb "id") = false
    · simp [query_validation, h1, h2] at h
      subst h
      simp [query_rule, h1, h2]
    · simp [query_validation, h1, h2] at h

/-- A failing check in the validation prefix of `update_rule` makes
the operation return 400 with that message and no external call. -/
lemma update_rule_validation_fails {σ : Type} (rb : RequestBody)
    (cl : Client σ) (s : σ) (msg : String)
    (h : update_validation rb = some msg) :
    update_rule rb cl s = (.response (json_response (.str msg) 400), s, []) := by
  by_cases h1 : read_body_parameter rb "id" = ""
  · simp [update_validation, h1] at h
    subst h
    simp [update_rule, h1]
  · by_cases h2 : read_body_parameter rb "date" = "" ∧
        read_body_parameter rb "state" = ""
    · simp only [update_validation, if_neg h1, if_pos h2, Option.some.injEq] at h
      subst h
      simp only [update_rule]
      rw [if_neg h1, if_pos h2]
    · by_cases h3 : validate_name (read_body_parameter rb "id") = false
      · simp only [update_validation, if_neg h1, if_neg h2, if_pos h3,
          Option.some.injEq] at h
        subst h
        simp only [update_rule]
        rw [if_neg h1, if_neg h2, if_pos h3]
      · by_cases h4 : read_body_parameter rb "state" ≠ "" ∧
            pyUpper (read_body_parameter rb "state") ≠ "ENABLED" ∧
            pyUpper (read_body_parameter rb "state") ≠ "DISABLED"
        · simp only [update_validation, if_neg h1, if_neg h2, if_neg h3, if_pos h4,
            Option.some.injEq] at h
          subst h
          simp only [update_rule]
          rw [if_neg h1, if_neg h2, if_neg h3, if_pos h4]
        · simp only [update_validation, if_neg h1, if_neg h2, if_neg h3,
            if_neg h4] at h
          exact Option.noConfusion h

/-- A failing check in the validation prefix of `delete_rule` makes
the operation return 400 with that message and no external call. -/
lemma delete_rule_validation_fails {σ : Type} (rb : RequestBody)
    (cl : Client σ) (s : σ) (msg : String)
    (h : delete_validation rb = some msg) :
    delete_rule rb cl s = (.response (json_response (.str msg) 400), s, []) := by
  by_cases h1 : read_body_parameter rb "id" = ""
  · simp [delete_validation, h1] at h
    subst h
    simp [delete_rule, h1]
  · by_cases h2 : validate_name (read_body_parameter rb "id") = false
    · simp [delete_validation, h1, h2] at h
      subst h
      simp [delete_rule, h1, h2]
    · simp [delete_validation, h1, h2] at h

/-- Claim C5 amended: every validation failure in the four operations
is detected before any scheduling-service call and makes the handler
return 400 with the message naming the failed constraint — though not
before every external call, since the executor identity lookup
precedes dispatch validation, so the trace of such a request is
exactly that one lookup.  This covers all validation branches: create
(empty id, empty date, name pattern, date format), query (name
pattern), update (empty id, neither date nor state, name pattern,
state enumeration) and delete (empty id, name pattern), and in
particular a create whose id contains a space and an update with
neither date nor state. -/
theorem C5_amended {σ : Type} (cl : Client σ) (s s₁ : σ) (env a msg : String)
    (rb : RequestBody) (gv conf arn : Val)
    (hG : cl.getFunction ("alarmsExecuter-" ++ env) s = (.ok gv, s₁))
    (hC : gv.getItem "Configuration" = .ok conf)
    (hA : conf.getItem "FunctionArn" = .ok arn)
    (hact : rb.action = some a)
    (hval : request_validation a rb = some msg) :
    handler ⟨"POST", .ok rb⟩ env cl s =
      (.response (json_response (.str msg) 400), s₁,
        [.getFunction ("alarmsExecuter-" ++ env)]) ∧
    noSchedCall (handler ⟨"POST", .ok rb⟩ env cl s).2.2 = true := by
  have hmain :
      handler ⟨"POST", .ok rb⟩ env cl s =
        (.response (json_response (.str msg) 400), s₁,
          [.getFunction ("alarmsExecuter-" ++ env)]) := by
    by_cases ha1 : a = "create"
    · subst ha1
      have hcv : create_validation rb = some msg := by
        simpa [request_validation] using hval
      simp [handler, hact, hG, hC, hA,
        create_rule_validation_fails rb arn cl s₁ msg hcv]
    · by_cases ha2 : a = "query"
      · subst ha2
        have hcv : query_validation rb = some msg := by
          simpa [request_validation] using hval
        simp [handler, hact, hG, hC, hA,
          query_rule_validation_fails rb cl s₁ msg hcv]
      · by_cases ha3 : a = "update"
        · subst ha3
          have hcv : update_validation rb = some msg := by
            simpa [request_validation] using hval
          simp [handler, hact, hG, hC, hA,
            update_rule_validation_fails rb cl s₁ msg hcv]
        · by_cases ha4 : a = "delete"
          · subst ha4
            have hcv : delete_validation rb = some msg := by
              simpa [request_validation] using hval
            simp [handler, hact, hG, hC, hA,
              delete_rule_validation_fails rb cl s₁ msg hcv]
          · exfalso
            simp [request_validation, ha1, ha2, ha3, ha4] at hval
  refine ⟨hmain, ?_⟩
  rw [hmain]
  rfl

/-- Claim C5 witness: the amended statement at a concrete create
request with a space in the id and a concrete update request with
neither date nor state. -/
theorem C5_witness :
    (handler ⟨"POST", .ok ⟨some "create", some "job 1", some "2030-01-01 09:30:00", none⟩⟩
        "dev" happyClient () =
      (.response (json_response (.str rulePatternMessage) 400), (),
        [.getFunction ("alarmsExecuter-" ++ "dev")]) ∧
     noSchedCall (handler ⟨"POST",
        .ok ⟨some "create", some "job 1", some "2030-01-01 09:30:00", none⟩⟩
        "dev" happyClient ()).2.2 = true) ∧
    (handler ⟨"POST", .ok ⟨some "update", some "job-1", none, none⟩⟩ "dev" happyClient () =
      (.response (json_response
          (.str "You must provide a date or a state to update the event") 400), (),
        [.getFunction ("alarmsExecuter-" ++ "dev")]) ∧
     noSchedCall (handler ⟨"POST", .ok ⟨some "update", some "job-1", none, none⟩⟩
        "dev" happyClient ()).2.2 = true) :=
  ⟨C5_amended happyClient () () "dev" "create" rulePatternMessage
      ⟨some "create", some "job 1", some "2030-01-01 09:30:00", none⟩
      happyGetFunctionVal (.dict [("FunctionArn", .str happyArn)]) (.str happyArn)
      rfl rfl rfl rfl rfl,
   C5_amended happyClient () () "dev" "update"
      "You must provide a date or a state to update the event"
      ⟨some "update", some "job-1", none, none⟩
      happyGetFunctionVal (.dict [("FunctionArn", .str happyArn)]) (.str happyArn)
      rfl rfl rfl rfl rfl⟩

/-- Claim C6: for a delete request whose remove-targets call raises
(as it does for a nonexistent rule), the handler returns 400 carrying
the service error message, no rule-delete call is ever issued, and the
external state is exactly the state after the failed detach (the
rule store is unchanged). -/
theorem C6_delete_detach_raises {σ : Type} (cl : Client σ) (s s₁ : σ) (env name emsg : String)
    (gv conf arn : Val)
    (hG : cl.getFunction ("alarmsExecuter-" ++ env) s = (.ok gv, s₁))
    (hC : gv.getItem "Configuration" = .ok conf)
    (hA : conf.getItem "FunctionArn" = .ok arn)
    (hn : name ≠ "") (hv : validate_name name = true)
    (hR : cl.removeTargets name [name] true s₁ = (.error emsg, s₁)) :
    handler ⟨"POST", .ok ⟨some "delete", some name, none, none⟩⟩ env cl s =
      (.response (json_response (.str emsg) 400), s₁,
        [.getFunction ("alarmsExecuter-" ++ env), .removeTargets name [name] true]) ∧
    noDeleteCall (handler ⟨"POST", .ok ⟨some "delete", some name, none, none⟩⟩
        env cl s).2.2 = true := by
  have hmain :
      handler ⟨"POST", .ok ⟨some "delete", some name, none, none⟩⟩ env cl s =
        (.response (json_response (.str emsg) 400), s₁,
          [.getFunction ("alarmsExecuter-" ++ env), .removeTargets name [name] true]) := by
    simp [handler, hG, hC, hA, delete_rule, read_body_parameter, hn, hv, hR]
  refine ⟨hmain, ?_⟩
  rw [hmain]
  rfl

/-- Claim C6 witness: the statement at a concrete delete of a
nonexistent rule against the raising-detach client. -/
theorem C6_witness :
    handler ⟨"POST", .ok ⟨some "delete", some "nope", none, none⟩⟩
        "dev" missingRuleClient () =
      (.response (json_response
          (.str "ResourceNotFoundException: Rule nope does not exist.") 400), (),
        [.getFunction ("alarmsExecuter-" ++ "dev"), .removeTargets "nope" ["nope"] true]) ∧
    noDeleteCall (handler ⟨"POST", .ok ⟨some "delete", some "nope", none, none⟩⟩
        "dev" missingRuleClient ()).2.2 = true :=
  C6_delete_detach_raises missingRuleClient () () "dev" "nope"
    "ResourceNotFoundException: Rule nope does not exist."
    happyGetFunctionVal (.dict [("FunctionArn", .str happyArn)]) (.str happyArn)
    rfl rfl rfl (by decide) (by decide) rfl

/-- Claim C7: an update request with a valid id and a state equal to
ENABLED or DISABLED up to letter case passes validation, and the
put-rule call the handler issues carries the upper-cased state. -/
theorem C7_update_state_normalized {σ : Type} (cl : Client σ) (s s₁ s₂ : σ)
    (env name state₀ se : String) (gv conf arn q : Val)
    (hG : cl.getFunction ("alarmsExecuter-" ++ env) s = (.ok gv, s₁))
    (hC : gv.getItem "Configuration" = .ok conf)
    (hA : conf.getItem "FunctionArn" = .ok arn)
    (hn : name ≠ "") (hv : validate_name name = true)
    (hst : state₀ ≠ "")
    (hup : pyUpper state₀ = "ENABLED" ∨ pyUpper state₀ = "DISABLED")
    (hD : cl.describeRule name s₁ = (.ok q, s₂))
    (hSE : q.getItem "ScheduleExpression" = .ok (.str se)) :
    (handler ⟨"POST", .ok ⟨some "update", some name, none, some state₀⟩⟩ env cl s).2.2 =
      [.getFunction ("alarmsExecuter-" ++ env), .describeRule name,
       .putRule name se (pyUpper state₀)] ∧
    Call.putRule name se (pyUpper state₀) ∈
      (handler ⟨"POST", .ok ⟨some "update", some name, none, some state₀⟩⟩ env cl s).2.2 := by
  have htrace :
      (handler ⟨"POST", .ok ⟨some "update", some name, none, some state₀⟩⟩ env cl s).2.2 =
        [.getFunction ("alarmsExecuter-" ++ env), .describeRule name,
         .putRule name se (pyUpper state₀)] := by
    have hsg : ¬(¬pyUpper state₀ = "ENABLED" ∧ ¬pyUpper state₀ = "DISABLED") := by
      rcases hup with h1 | h1 <;> simp [h1]
    rcases hPR : cl.putRule name se (pyUpper state₀) s₂ with ⟨res, s₃⟩
    cases res with
    | error e =>
      simp [handler, hG, hC, hA, update_rule, read_body_parameter, hn, hv, hst, hsg,
        hD, hSE, Bind.bind, Except.bind, Val.asStr, hPR]
    | ok p =>
      rcases hRA : p.getItem "RuleArn" with e | v
      · simp [handler, hG, hC, hA, update_rule, read_body_parameter, hn, hv, hst, hsg,
          hD, hSE, Bind.bind, Except.bind, Val.asStr, hPR, hRA]
      · cases v <;>
          simp [handler, hG, hC, hA, update_rule, read_body_parameter, hn, hv, hst, hsg,
            hD, hSE, Bind.bind, Except.bind, Val.asStr, hPR, hRA]
  refine ⟨htrace, ?_⟩
  rw [htrace]
  simp

/-- Claim C7 witness: the statement at a concrete update with the
lowercase state `enabled`. -/
theorem C7_witness :
    (handler ⟨"POST", .ok ⟨some "update", some "job-1", none, some "enabled"⟩⟩
        "dev" happyClient ()).2.2 =
      [.getFunction ("alarmsExecuter-" ++ "dev"), .describeRule "job-1",
       .putRule "job-1" "cron(0 0 * * ? *)" (pyUpper "enabled")] ∧
    Call.putRule "job-1" "cron(0 0 * * ? *)" (pyUpper "enabled") ∈
      (handler ⟨"POST", .ok ⟨some "update", some "job-1", none, some "enabled"⟩⟩
        "dev" happyClient ()).2.2 :=
  C7_update_state_normalized happyClient () () () "dev" "job-1" "enabled"
    "cron(0 0 * * ? *)" happyGetFunctionVal
    (.dict [("FunctionArn", .str happyArn)]) (.str happyArn)
    (.dict [("Name", .str "job-1"),
            ("ScheduleExpression", .str "cron(0 0 * * ? *)"),
            ("State", .str "ENABLED")])
    rfl rfl rfl (by decide) (by decide) (by decide) (Or.inl (by decide)) rfl rfl

/-- Claim C8: a query whose id is absent or empty returns the full
rule listing with status 200 and never issues a describe call, while a
query with a nonempty pattern-valid id returns that rule's description
with status 200. -/
theorem C8_query {σ : Type} (cl : Client σ) (s s₁ s₂ s₃ : σ) (env name : String)
    (idOpt : Option String) (gv conf arn lr dr : Val)
    (hG : cl.getFunction ("alarmsExecuter-" ++ env) s = (.ok gv, s₁))
    (hC : gv.getItem "Configuration" = .ok conf)
    (hA : conf.getItem "FunctionArn" = .ok arn)
    (hid : idOpt = none ∨ idOpt = some "")
    (hL : cl.listRules s₁ = (.ok lr, s₂))
    (hn : name ≠ "") (hv : validate_name name = true)
    (hD : cl.describeRule name s₁ = (.ok dr, s₃)) :
    handler ⟨"POST", .ok ⟨some "query", idOpt, none, none⟩⟩ env cl s =
      (.response (json_response lr 200), s₂,
        [.getFunction ("alarmsExecuter-" ++ env), .listRules]) ∧
    noDescribeCall (handler ⟨"POST", .ok ⟨some "query", idOpt, none, none⟩⟩
        env cl s).2.2 = true ∧
    handler ⟨"POST", .ok ⟨some "query", some name, none, none⟩⟩ env cl s =
      (.response (json_response dr 200), s₃,
        [.getFunction ("alarmsExecuter-" ++ env), .describeRule name]) := by
  have hmain :
      handler ⟨"POST", .ok ⟨some "query", idOpt, none, none⟩⟩ env cl s =
        (.response (json_response lr 200), s₂,
          [.getFunction ("alarmsExecuter-" ++ env), .listRules]) := by
    rcases hid with h | h <;> subst h <;>
      simp [handler, hG, hC, hA, query_rule, read_body_parameter, hL]
  refine ⟨hmain, ?_, ?_⟩
  · rw [hmain]; rfl
  · simp [handler, hG, hC, hA, query_rule, read_body_parameter, hn, hv, hD]

/-- Claim C8 witness: the statement at a concrete absent id and at the
concrete id `job-1`. -/
theorem C8_witness :
    handler ⟨"POST", .ok ⟨some "query", none, none, none⟩⟩ "dev" happyClient () =
      (.response (json_response
          (.dict [("Rules", .list [.dict [("Name", .str "job-1")]])]) 200), (),
        [.getFunction ("alarmsExecuter-" ++ "dev"), .listRules]) ∧
    noDescribeCall (handler ⟨"POST", .ok ⟨some "query", none, none, none⟩⟩
        "dev" happyClient ()).2.2 = true ∧
    handler ⟨"POST", .ok ⟨some "query", some "job-1", none, none⟩⟩ "dev" happyClient () =
      (.response (json_response
          (.dict [("Name", .str "job-1"),
                  ("ScheduleExpression", .str "cron(0 0 * * ? *)"),
                  ("State", .str "ENABLED")]) 200), (),
        [.getFunction ("alarmsExecuter-" ++ "dev"), .describeRule "job-1"]) :=
  C8_query happyClient () () () () "dev" "job-1" none happyGetFunctionVal
    (.dict [("FunctionArn", .str happyArn)]) (.str happyArn)
    (.dict [("Rules", .list [.dict [("Name", .str "job-1")]])])
    (.dict [("Name", .str "job-1"),
            ("ScheduleExpression", .str "cron(0 0 * * ? *)"),
            ("State", .str "ENABLED")])
    rfl rfl rfl (Or.inl rfl) rfl (by decide) (by decide) rfl

/-- Claim C9: when the identity-resolution lookup of the executor
function raises, for any POST request with a parsable body and a
nonempty action, the exception propagates out of the handler uncaught
instead of being converted to a response. -/
theorem C9_lookup_uncaught {σ : Type} (cl : Client σ) (s s₁ : σ) (env emsg a : String)
    (rb : RequestBody) (hact : rb.action = some a) (ha : a ≠ "")
    (hG : cl.getFunction ("alarmsExecuter-" ++ env) s = (.error emsg, s₁)) :
    handler ⟨"POST", .ok rb⟩ env cl s =
      (.uncaught emsg, s₁, [.getFunction ("alarmsExecuter-" ++ env)]) ∧
    respStatus (handler ⟨"POST", .ok rb⟩ env cl s).1 = none := by
  have hmain :
      handler ⟨"POST", .ok rb⟩ env cl s =
        (.uncaught emsg, s₁, [.getFunction ("alarmsExecuter-" ++ env)]) := by
    simp [handler, hact, ha, hG]
  refine ⟨hmain, ?_⟩
  rw [hmain]
  rfl

/-- Claim C9 witness: the statement at a concrete query request
against the client whose lookup raises. -/
theorem C9_witness :
    handler ⟨"POST", .ok ⟨some "query", some "job-1", none, none⟩⟩
        "dev" failingLookupClient () =
      (.uncaught ("ResourceNotFoundException: Function not found: " ++
          ("alarmsExecuter-" ++ "dev")), (),
        [.getFunction ("alarmsExecuter-" ++ "dev")]) ∧
    respStatus (handler ⟨"POST", .ok ⟨some "query", some "job-1", none, none⟩⟩
        "dev" failingLookupClient ()).1 = none :=
  C9_lookup_uncaught failingLookupClient () ()
    "dev" ("ResourceNotFoundException: Function not found: " ++ ("alarmsExecuter-" ++ "dev"))
    "query" ⟨some "query", some "job-1", none, none⟩ rfl (by decide) rfl

/-- Claim C10: an update whose date is present but unparsable is not
rejected with 400 for the date — the date is silently treated as
absent: the existing rule is read and re-put with its old schedule
expression and old state, returning 200 when the service calls
succeed; a create with the same unparsable date is rejected with 400
and issues no scheduling call. -/
theorem C10_update_bad_date {σ : Type} (cl : Client σ) (s s₁ s₂ s₃ : σ)
    (env name d se st rarn : String) (gv conf arn q p : Val)
    (hG : cl.getFunction ("alarmsExecuter-" ++ env) s = (.ok gv, s₁))
    (hC : gv.getItem "Configuration" = .ok conf)
    (hA : conf.getItem "FunctionArn" = .ok arn)
    (hn : name ≠ "") (hv : validate_name name = true)
    (hd : d ≠ "") (hbad : validate_date d = none)
    (hD : cl.describeRule name s₁ = (.ok q, s₂))
    (hSE : q.getItem "ScheduleExpression" = .ok (.str se))
    (hST : q.getItem "State" = .ok (.str st))
    (hP : cl.putRule name se st s₂ = (.ok p, s₃))
    (hRA : p.getItem "RuleArn" = .ok (.str rarn)) :
    handler ⟨"POST", .ok ⟨some "update", some name, some d, none⟩⟩ env cl s =
      (.response (json_response (.str ("Rule updated successfully: " ++ rarn)) 200), s₃,
        [.getFunction ("alarmsExecuter-" ++ env), .describeRule name,
         .putRule name se st]) ∧
    handler ⟨"POST", .ok ⟨some "create", some name, some d, none⟩⟩ env cl s =
      (.response (json_response (.str dateFormatMessage) 400), s₁,
        [.getFunction ("alarmsExecuter-" ++ env)]) := by
  constructor
  · simp [handler, hG, hC, hA, update_rule, read_body_parameter, hn, hv, hd, hbad,
      hD, hSE, hST, hP, hRA, Bind.bind, Except.bind, Val.asStr]
  · simp [handler, hG, hC, hA, create_rule, read_body_parameter, hn, hv, hd, hbad]

/-- Claim C10 witness: the statement at the concrete date
`not-a-date`. -/
theorem C10_witness :
    handler ⟨"POST", .ok ⟨some "update", some "job-1", some "not-a-date", none⟩⟩
        "dev" happyClient () =
      (.response (json_response
          (.str ("Rule updated successfully: " ++ "arn:rule/job-1")) 200), (),
        [.getFunction ("alarmsExecuter-" ++ "dev"), .describeRule "job-1",
         .putRule "job-1" "cron(0 0 * * ? *)" "ENABLED"]) ∧
    handler ⟨"POST", .ok ⟨some "create", some "job-1", some "not-a-date", none⟩⟩
        "dev" happyClient () =
      (.response (json_response (.str dateFormatMessage) 400), (),
        [.getFunction ("alarmsExecuter-" ++ "dev")]) :=
  C10_update_bad_date happyClient () () () () "dev" "job-1" "not-a-date"
    "cron(0 0 * * ? *)" "ENABLED" "arn:rule/job-1" happyGetFunctionVal
    (.dict [("FunctionArn", .str happyArn)]) (.str happyArn)
    (.dict [("Name", .str "job-1"),
            ("ScheduleExpression", .str "cron(0 0 * * ? *)"),
            ("State", .str "ENABLED")])
    (.dict [("RuleArn", .str "arn:rule/job-1")])
    rfl rfl rfl (by decide) (by decide) (by decide) rfl rfl rfl rfl rfl rfl

end AlarmsScheduler
